import Mathlib

/-! Verification of the ai-gap-finder repository.

The repository ships a Go HTTP client (src/examples/go_client.go) for the
analysis microservice, together with a specification of the service's
orchestration core (prompt building, schema validation, topic analysis and
gap aggregation).  This file embeds the Go client's wire types and
request/response handling directly from the source, and models the
orchestration core (whose implementation is not part of the shipped
sources) from the specification, proving the stated properties of both. -/

/-- JSON documents as handled by Go encoding/json; numbers are modelled as
rationals. -/
inductive Json where
  | null : Json
  | bool : Bool → Json
  | num : ℚ → Json
  | str : String → Json
  | arr : List Json → Json
  | obj : List (String × Json) → Json

/-- Keys of a JSON object (empty for non-objects). -/
def Json.objKeys : Json → List String
  | .obj kvs => kvs.map Prod.fst
  | _ => []

/-- Field lookup in a JSON object, first match wins (Go decodes the last
occurrence, but encoded objects never repeat keys). -/
def Json.lookupKey : Json → String → Option Json
  | .obj kvs, k => kvs.lookup k
  | _, _ => none

/-- Go struct AnalyzeRequest (go_client.go lines 13-19).  Go nil slices and
empty slices are both modelled as the empty list. -/
structure AnalyzeRequest where
  Title : String
  Abstract : String
  Field : String
  Authors : List String
  Keywords : List String
deriving DecidableEq, Repr

/-- Go struct TopicRequest (go_client.go lines 21-25). -/
structure TopicRequest where
  Topic : String
  Field : String
  MaxPapers : Int
deriving DecidableEq, Repr

/-- Go struct ResearchGap (go_client.go lines 28-33); also the shape shared
by CommonGap entries of a topic response. -/
structure ResearchGap where
  GapDescription : String
  ConfidenceScore : ℚ
  GapType : String
  PotentialImpact : String
deriving DecidableEq, Repr

/-- Go struct Hypothesis (go_client.go lines 35-40). -/
structure Hypothesis where
  Hypothesis : String
  Rationale : String
  FeasibilityScore : ℚ
  RequiredMethods : List String
deriving DecidableEq, Repr

/-- Go struct AnalyzeResponse (go_client.go lines 42-50); this is also the
client-side model of the spec's AnalysisResult. -/
structure AnalyzeResponse where
  KeyFindings : List String
  Gaps : List ResearchGap
  SuggestedHypotheses : List Hypothesis
  Limitations : List String
  MethodologyGaps : List String
  FutureDirections : List String
  ProcessingTime : ℚ
deriving DecidableEq, Repr

/-- Go struct TopicAnalysisResult (go_client.go lines 52-58): one paper's
identity together with its gaps — the spec's TopicAnalysisUnit. -/
structure TopicAnalysisResult where
  PaperTitle : String
  Authors : List String
  Abstract : String
  Gaps : List ResearchGap
  URL : String
deriving DecidableEq, Repr

/-- Go struct TopicResponse (go_client.go lines 60-67). -/
structure TopicResponse where
  Topic : String
  PapersAnalyzed : Int
  CommonGaps : List ResearchGap
  IndividualResults : List TopicAnalysisResult
  SuggestedResearchDirections : List String
  ProcessingTime : ℚ
deriving DecidableEq, Repr

/-! ### Encoding: what json.Marshal produces for these structs -/

/-- Serialization of AnalyzeRequest per its struct tags: authors and
keywords carry omitempty, so an empty (or nil) slice omits the key. -/
def encodeAnalyzeRequest (r : AnalyzeRequest) : Json :=
  .obj ([("title", .str r.Title), ("abstract", .str r.Abstract),
         ("field", .str r.Field)]
    ++ (if r.Authors = [] then [] else [("authors", .arr (r.Authors.map .str))])
    ++ (if r.Keywords = [] then [] else [("keywords", .arr (r.Keywords.map .str))]))

/-- Serialization of TopicRequest per its struct tags: max_papers carries
omitempty, so the zero value 0 omits the key. -/
def encodeTopicRequest (r : TopicRequest) : Json :=
  .obj ([("topic", .str r.Topic), ("field", .str r.Field)]
    ++ (if r.MaxPapers = 0 then [] else [("max_papers", .num (r.MaxPapers : ℚ))]))

/-- Serialization of ResearchGap per its struct tags (no omitempty). -/
def encodeResearchGap (g : ResearchGap) : Json :=
  .obj [("gap_description", .str g.GapDescription),
        ("confidence_score", .num g.ConfidenceScore),
        ("gap_type", .str g.GapType),
        ("potential_impact", .str g.PotentialImpact)]

/-- Serialization of Hypothesis per its struct tags. -/
def encodeHypothesis (h : Hypothesis) : Json :=
  .obj [("hypothesis", .str h.Hypothesis),
        ("rationale", .str h.Rationale),
        ("feasibility_score", .num h.FeasibilityScore),
        ("required_methods", .arr (h.RequiredMethods.map .str))]

/-- Serialization of AnalyzeResponse per its struct tags. -/
def encodeAnalyzeResponse (r : AnalyzeResponse) : Json :=
  .obj [("key_findings", .arr (r.KeyFindings.map .str)),
        ("gaps", .arr (r.Gaps.map encodeResearchGap)),
        ("suggested_hypotheses", .arr (r.SuggestedHypotheses.map encodeHypothesis)),
        ("limitations", .arr (r.Limitations.map .str)),
        ("methodology_gaps", .arr (r.MethodologyGaps.map .str)),
        ("future_directions", .arr (r.FutureDirections.map .str)),
        ("processing_time", .num r.ProcessingTime)]

/-- Serialization of TopicAnalysisResult per its struct tags. -/
def encodeTopicAnalysisResult (u : TopicAnalysisResult) : Json :=
  .obj [("paper_title", .str u.PaperTitle),
        ("authors", .arr (u.Authors.map .str)),
        ("abstract", .str u.Abstract),
        ("gaps", .arr (u.Gaps.map encodeResearchGap)),
        ("url", .str u.URL)]

/-- Serialization of TopicResponse per its struct tags. -/
def encodeTopicResponse (t : TopicResponse) : Json :=
  .obj [("topic", .str t.Topic),
        ("papers_analyzed", .num (t.PapersAnalyzed : ℚ)),
        ("common_gaps", .arr (t.CommonGaps.map encodeResearchGap)),
        ("individual_results", .arr (t.IndividualResults.map encodeTopicAnalysisResult)),
        ("suggested_research_directions", .arr (t.SuggestedResearchDirections.map .str)),
        ("processing_time", .num t.ProcessingTime)]

/-! ### Decoding: what json.Unmarshal accepts for these structs

Go semantics: an absent key or a null value leaves the field at its zero
value; a value of the wrong JSON kind is an error (modelled as none). -/

/-- Decode a string-typed struct field from a looked-up object entry. -/
def decodeStringField : Option Json → Option String
  | none => some ""
  | some .null => some ""
  | some (.str s) => some s
  | _ => none

/-- Decode a float64-typed struct field. -/
def decodeNumberField : Option Json → Option ℚ
  | none => some 0
  | some .null => some 0
  | some (.num q) => some q
  | _ => none

/-- Decode an int-typed struct field: a fractional number is an error. -/
def decodeIntField : Option Json → Option Int
  | none => some 0
  | some .null => some 0
  | some (.num q) => if q.den = 1 then some q.num else none
  | _ => none

/-- Decode one element of a []string. -/
def decodeStringElem : Json → Option String
  | .str s => some s
  | .null => some ""
  | _ => none

/-- Decode every element of a JSON array with a given element decoder. -/
def decodeList (dec : Json → Option α) : List Json → Option (List α)
  | [] => some []
  | x :: xs => do
      let a ← dec x
      let as ← decodeList dec xs
      some (a :: as)

/-- Decode a []string-typed struct field. -/
def decodeStringArray : Option Json → Option (List String)
  | none => some []
  | some .null => some []
  | some (.arr xs) => decodeList decodeStringElem xs
  | _ => none

/-- Decode one ResearchGap object. -/
def decodeResearchGap (j : Json) : Option ResearchGap :=
  match j with
  | .null => some ⟨"", 0, "", ""⟩
  | .obj _ => do
      let d ← decodeStringField (j.lookupKey "gap_description")
      let c ← decodeNumberField (j.lookupKey "confidence_score")
      let t ← decodeStringField (j.lookupKey "gap_type")
      let i ← decodeStringField (j.lookupKey "potential_impact")
      some ⟨d, c, t, i⟩
  | _ => none

/-- Decode one Hypothesis object. -/
def decodeHypothesis (j : Json) : Option Hypothesis :=
  match j with
  | .null => some ⟨"", "", 0, []⟩
  | .obj _ => do
      let s ← decodeStringField (j.lookupKey "hypothesis")
      let r ← decodeStringField (j.lookupKey "rationale")
      let f ← decodeNumberField (j.lookupKey "feasibility_score")
      let m ← decodeStringArray (j.lookupKey "required_methods")
      some ⟨s, r, f, m⟩
  | _ => none

/-- Decode a []ResearchGap-typed struct field. -/
def decodeGapArray : Option Json → Option (List ResearchGap)
  | none => some []
  | some .null => some []
  | some (.arr xs) => decodeList decodeResearchGap xs
  | _ => none

/-- Decode a []Hypothesis-typed struct field. -/
def decodeHypothesisArray : Option Json → Option (List Hypothesis)
  | none => some []
  | some .null => some []
  | some (.arr xs) => decodeList decodeHypothesis xs
  | _ => none

/-- json.Unmarshal into AnalyzeResponse (go_client.go lines 114-117). -/
def decodeAnalyzeResponse (j : Json) : Option AnalyzeResponse :=
  match j with
  | .obj _ => do
      let kf ← decodeStringArray (j.lookupKey "key_findings")
      let gs ← decodeGapArray (j.lookupKey "gaps")
      let sh ← decodeHypothesisArray (j.lookupKey "suggested_hypotheses")
      let li ← decodeStringArray (j.lookupKey "limitations")
      let mg ← decodeStringArray (j.lookupKey "methodology_gaps")
      let fd ← decodeStringArray (j.lookupKey "future_directions")
      let pt ← decodeNumberField (j.lookupKey "processing_time")
      some ⟨kf, gs, sh, li, mg, fd, pt⟩
  | _ => none

/-- Decode one TopicAnalysisResult object. -/
def decodeTopicAnalysisResult (j : Json) : Option TopicAnalysisResult :=
  match j with
  | .null => some ⟨"", [], "", [], ""⟩
  | .obj _ => do
      let pt ← decodeStringField (j.lookupKey "paper_title")
      let au ← decodeStringArray (j.lookupKey "authors")
      let ab ← decodeStringField (j.lookupKey "abstract")
      let gs ← decodeGapArray (j.lookupKey "gaps")
      let u ← decodeStringField (j.lookupKey "url")
      some ⟨pt, au, ab, gs, u⟩
  | _ => none

/-- Decode a []TopicAnalysisResult-typed struct field. -/
def decodeUnitArray : Option Json → Option (List TopicAnalysisResult)
  | none => some []
  | some .null => some []
  | some (.arr xs) => decodeList decodeTopicAnalysisResult xs
  | _ => none

/-- json.Unmarshal into TopicResponse (go_client.go lines 145-148). -/
def decodeTopicResponse (j : Json) : Option TopicResponse :=
  match j with
  | .obj _ => do
      let tp ← decodeStringField (j.lookupKey "topic")
      let pa ← decodeIntField (j.lookupKey "papers_analyzed")
      let cg ← decodeGapArray (j.lookupKey "common_gaps")
      let ir ← decodeUnitArray (j.lookupKey "individual_results")
      let sd ← decodeStringArray (j.lookupKey "suggested_research_directions")
      let pt ← decodeNumberField (j.lookupKey "processing_time")
      some ⟨tp, pa, cg, ir, sd, pt⟩
  | _ => none

/-! ### Client response handling

AnalyzeAbstract and AnalyzeTopic (go_client.go lines 92-151) return the Go
pair (result pointer, error).  We model the portion after the HTTP response
has been read: status check, error construction, and body decoding.  The
syntactic JSON parser of encoding/json is abstracted as a parameter. -/

/-- An HTTP response as seen by the client after io.ReadAll. -/
structure HttpResponse where
  StatusCode : Nat
  Body : String
deriving DecidableEq, Repr

/-- Response handling of AnalyzeAbstract (go_client.go lines 110-119):
non-200 yields the formatted error, otherwise the body is unmarshaled. -/
def AnalyzeAbstract (jsonParse : String → Option Json) (resp : HttpResponse) :
    Option AnalyzeResponse × Option String :=
  if resp.StatusCode ≠ 200 then
    (none, some ("API returned status " ++ toString resp.StatusCode ++ ": " ++ resp.Body))
  else
    match (jsonParse resp.Body).bind decodeAnalyzeResponse with
    | some r => (some r, none)
    | none => (none, some "error unmarshaling response")

/-- Response handling of AnalyzeTopic (go_client.go lines 141-150). -/
def AnalyzeTopic (jsonParse : String → Option Json) (resp : HttpResponse) :
    Option TopicResponse × Option String :=
  if resp.StatusCode ≠ 200 then
    (none, some ("API returned status " ++ toString resp.StatusCode ++ ": " ++ resp.Body))
  else
    match (jsonParse resp.Body).bind decodeTopicResponse with
    | some r => (some r, none)
    | none => (none, some "error unmarshaling response")

/-! ### Round-trip lemmas: decoding inverts encoding -/

theorem decodeList_map {α : Type} (dec : Json → Option α) (enc : α → Json)
    (h : ∀ a, dec (enc a) = some a) (l : List α) :
    decodeList dec (l.map enc) = some l := by
  induction l with
  | nil => rfl
  | cons x xs ih => simp [decodeList, h x, ih]

theorem decode_encode_researchGap (g : ResearchGap) :
    decodeResearchGap (encodeResearchGap g) = some g := rfl

theorem decode_encode_hypothesis (h : Hypothesis) :
    decodeHypothesis (encodeHypothesis h) = some h := by
  simp [encodeHypothesis, decodeHypothesis, Json.lookupKey, decodeStringField,
    decodeNumberField, decodeStringArray, List.lookup,
    decodeList_map decodeStringElem Json.str (fun _ => rfl)]

theorem decode_encode_stringArray (l : List String) :
    decodeStringArray (some (.arr (l.map .str))) = some l := by
  simp [decodeStringArray, decodeList_map decodeStringElem Json.str (fun _ => rfl)]

theorem decode_encode_analyzeResponse (r : AnalyzeResponse) :
    decodeAnalyzeResponse (encodeAnalyzeResponse r) = some r := by
  simp [encodeAnalyzeResponse, decodeAnalyzeResponse, Json.lookupKey, List.lookup,
    decodeStringArray, decodeGapArray, decodeHypothesisArray, decodeNumberField,
    decodeList_map decodeStringElem Json.str (fun _ => rfl),
    decodeList_map decodeResearchGap encodeResearchGap decode_encode_researchGap,
    decodeList_map decodeHypothesis encodeHypothesis decode_encode_hypothesis]

theorem decode_encode_topicAnalysisResult (u : TopicAnalysisResult) :
    decodeTopicAnalysisResult (encodeTopicAnalysisResult u) = some u := by
  simp [encodeTopicAnalysisResult, decodeTopicAnalysisResult, Json.lookupKey,
    List.lookup, decodeStringField, decodeStringArray, decodeGapArray,
    decodeList_map decodeStringElem Json.str (fun _ => rfl),
    decodeList_map decodeResearchGap encodeResearchGap decode_encode_researchGap]

theorem decode_encode_topicResponse (t : TopicResponse) :
    decodeTopicResponse (encodeTopicResponse t) = some t := by
  simp [encodeTopicResponse, decodeTopicResponse, Json.lookupKey, List.lookup,
    decodeStringField, decodeIntField, decodeStringArray, decodeGapArray,
    decodeUnitArray, decodeNumberField,
    decodeList_map decodeStringElem Json.str (fun _ => rfl),
    decodeList_map decodeResearchGap encodeResearchGap decode_encode_researchGap,
    decodeList_map decodeTopicAnalysisResult encodeTopicAnalysisResult
      decode_encode_topicAnalysisResult]

/-! ### Wire-format claims about the Go client -/

/-- C6: the wire format of a successful POST /analyze response consists
exactly of the JSON fields key_findings, gaps, suggested_hypotheses,
limitations, methodology_gaps, future_directions, processing_time; each
ResearchGap serializes with exactly the four documented keys and each
Hypothesis with its four keys, and the client's decoder agrees with this
schema on every response value. -/
theorem analyzeResponse_wire_schema :
    ∀ (r : AnalyzeResponse) (g : ResearchGap) (h : Hypothesis),
      (encodeAnalyzeResponse r).objKeys =
        ["key_findings", "gaps", "suggested_hypotheses", "limitations",
         "methodology_gaps", "future_directions", "processing_time"] ∧
      (encodeResearchGap g).objKeys =
        ["gap_description", "confidence_score", "gap_type", "potential_impact"] ∧
      (encodeHypothesis h).objKeys =
        ["hypothesis", "rationale", "feasibility_score", "required_methods"] ∧
      decodeAnalyzeResponse (encodeAnalyzeResponse r) = some r := by
  intro r g h
  exact ⟨rfl, rfl, rfl, decode_encode_analyzeResponse r⟩

/-- C8: serializing an AnalyzeResponse value to the JSON wire format and
parsing it back yields the original value, field for field. -/
theorem analyzeResponse_round_trip :
    ∀ r : AnalyzeResponse, decodeAnalyzeResponse (encodeAnalyzeResponse r) = some r :=
  decode_encode_analyzeResponse

/-- A concrete CommonGap entry of a topic response, used to refute C7. -/
def sampleCommonGap : ResearchGap :=
  ⟨"lack of longitudinal data", 7/10, "empirical", "high"⟩

/-- C7 counterexample: the wire model of a CommonGap entry (the client
decodes common_gaps as a list of ResearchGap) carries no key beyond the
four ResearchGap fields, so no support-count field exists on the wire. -/
theorem commonGap_no_support_field :
    ¬ ∃ k : String, k ∈ (encodeResearchGap sampleCommonGap).objKeys ∧
      k ∉ ["gap_description", "confidence_score", "gap_type", "potential_impact"] := by
  rintro ⟨k, hk, hnot⟩
  simp only [sampleCommonGap, encodeResearchGap, Json.objKeys, List.map_cons,
    List.map_nil, List.mem_cons, List.not_mem_nil, or_false] at hk
  rcases hk with h | h | h | h <;> subst h <;> simp at hnot

/-- C7 amended: every CommonGap entry of a topic response carries exactly
the four ResearchGap fields (gap_description, confidence_score, gap_type,
potential_impact); the client's wire model has no support-count field,
while the common_gaps key itself is always present in a topic response. -/
theorem commonGap_wire_fields :
    ∀ (g : ResearchGap) (t : TopicResponse),
      (encodeResearchGap g).objKeys =
        ["gap_description", "confidence_score", "gap_type", "potential_impact"] ∧
      "common_gaps" ∈ (encodeTopicResponse t).objKeys := by
  intro g t
  refine ⟨rfl, ?_⟩
  simp [encodeTopicResponse, Json.objKeys]

/-- C9: for every HTTP exchange of AnalyzeAbstract and AnalyzeTopic, a
non-200 status yields a nil result and an error message embedding the
status code and response body; a 200 status with a decodable body yields
the decoded result and a nil error; and in every case exactly one of the
result and the error is non-nil. -/
theorem client_error_handling :
    ∀ (jsonParse : String → Option Json) (resp : HttpResponse),
      (resp.StatusCode ≠ 200 →
        (AnalyzeAbstract jsonParse resp).1 = none ∧
        (AnalyzeTopic jsonParse resp).1 = none ∧
        ∃ e, (AnalyzeAbstract jsonParse resp).2 = some e ∧
             (AnalyzeTopic jsonParse resp).2 = some e ∧
             ∃ a b, e = a ++ toString resp.StatusCode ++ b ++ resp.Body) ∧
      (resp.StatusCode = 200 →
        (∀ r, (jsonParse resp.Body).bind decodeAnalyzeResponse = some r →
          AnalyzeAbstract jsonParse resp = (some r, none)) ∧
        (∀ t, (jsonParse resp.Body).bind decodeTopicResponse = some t →
          AnalyzeTopic jsonParse resp = (some t, none))) ∧
      ((AnalyzeAbstract jsonParse resp).1.isSome ↔
        (AnalyzeAbstract jsonParse resp).2 = none) ∧
      ((AnalyzeTopic jsonParse resp).1.isSome ↔
        (AnalyzeTopic jsonParse resp).2 = none) := by
  intro jp resp
  by_cases h : resp.StatusCode = 200
  · refine ⟨fun hne => absurd h hne, fun _ => ⟨?_, ?_⟩, ?_, ?_⟩
    · intro r hr; simp [AnalyzeAbstract, h, hr]
    · intro t ht; simp [AnalyzeTopic, h, ht]
    · cases hb : (jp resp.Body).bind decodeAnalyzeResponse <;>
        simp [AnalyzeAbstract, h, hb]
    · cases hb : (jp resp.Body).bind decodeTopicResponse <;>
        simp [AnalyzeTopic, h, hb]
  · refine ⟨fun _ => ⟨?_, ?_, ?_⟩, fun he => absurd he h, ?_, ?_⟩
    · simp [AnalyzeAbstract, h]
    · simp [AnalyzeTopic, h]
    · exact ⟨"API returned status " ++ toString resp.StatusCode ++ ": " ++ resp.Body,
        by simp [AnalyzeAbstract, h], by simp [AnalyzeTopic, h],
        "API returned status ", ": ", rfl⟩
    · simp [AnalyzeAbstract, h]
    · simp [AnalyzeTopic, h]

/-- C9 witness: a concrete 500 exchange produces a nil result and an error
message carrying status and body, and a concrete decodable 200 exchange
produces a decoded result with a nil error. -/
theorem client_error_handling_witness :
    (AnalyzeAbstract (fun _ => none) ⟨500, "boom"⟩).1 = none ∧
    AnalyzeAbstract (fun _ => some (encodeAnalyzeResponse ⟨[], [], [], [], [], [], 0⟩))
        ⟨200, "ok"⟩ = (some ⟨[], [], [], [], [], [], 0⟩, none) := by
  refine ⟨((client_error_handling (fun _ => none) ⟨500, "boom"⟩).1 (by decide)).1, ?_⟩
  exact ((client_error_handling
      (fun _ => some (encodeAnalyzeResponse ⟨[], [], [], [], [], [], 0⟩)) ⟨200, "ok"⟩).2.1
      rfl).1 ⟨[], [], [], [], [], [], 0⟩
      (by simp [Option.bind, decode_encode_analyzeResponse])

/-- C10: the request bodies built by the client omit the authors and
keywords keys when the corresponding slices are empty and omit max_papers
when MaxPapers is 0, while title, abstract, field and topic are always
present. -/
theorem request_omitempty :
    ∀ (r : AnalyzeRequest) (t : TopicRequest),
      (r.Authors = [] → "authors" ∉ (encodeAnalyzeRequest r).objKeys) ∧
      (r.Keywords = [] → "keywords" ∉ (encodeAnalyzeRequest r).objKeys) ∧
      "title" ∈ (encodeAnalyzeRequest r).objKeys ∧
      "abstract" ∈ (encodeAnalyzeRequest r).objKeys ∧
      "field" ∈ (encodeAnalyzeRequest r).objKeys ∧
      (t.MaxPapers = 0 → "max_papers" ∉ (encodeTopicRequest t).objKeys) ∧
      "topic" ∈ (encodeTopicRequest t).objKeys ∧
      "field" ∈ (encodeTopicRequest t).objKeys := by
  intro r t
  refine ⟨?_, ?_, ?_, ?_, ?_, ?_, ?_, ?_⟩
  · intro ha
    by_cases hk : r.Keywords = [] <;> simp [encodeAnalyzeRequest, Json.objKeys, ha, hk]
  · intro hk
    by_cases ha : r.Authors = [] <;> simp [encodeAnalyzeRequest, Json.objKeys, ha, hk]
  · by_cases ha : r.Authors = [] <;> by_cases hk : r.Keywords = [] <;>
      simp [encodeAnalyzeRequest, Json.objKeys, ha, hk]
  · by_cases ha : r.Authors = [] <;> by_cases hk : r.Keywords = [] <;>
      simp [encodeAnalyzeRequest, Json.objKeys, ha, hk]
  · by_cases ha : r.Authors = [] <;> by_cases hk : r.Keywords = [] <;>
      simp [encodeAnalyzeRequest, Json.objKeys, ha, hk]
  · intro hm; simp [encodeTopicRequest, Json.objKeys, hm]
  · by_cases hm : t.MaxPapers = 0 <;> simp [encodeTopicRequest, Json.objKeys, hm]
  · by_cases hm : t.MaxPapers = 0 <;> simp [encodeTopicRequest, Json.objKeys, hm]

/-- C10 witness: a concrete request with empty optional slices omits the
optional keys, and a concrete topic request with MaxPapers 0 omits
max_papers. -/
theorem request_omitempty_witness :
    "authors" ∉ (encodeAnalyzeRequest ⟨"T", "A", "F", [], []⟩).objKeys ∧
    "max_papers" ∉ (encodeTopicRequest ⟨"q", "f", 0⟩).objKeys := by
  have h := request_omitempty ⟨"T", "A", "F", [], []⟩ ⟨"q", "f", 0⟩
  exact ⟨h.1 rfl, h.2.2.2.2.2.1 rfl⟩

/-! ### The orchestration core, modelled from the specification

The analysis engine itself (a Python service) is not part of the shipped
sources; the definitions below are modelled from the specification's
component contracts (§3-§7). -/

/-- Modelled from the spec: the error taxonomy of §7 for single-abstract
analysis. -/
inductive AnalysisError where
  | invalidRequest : AnalysisError
  | timeout : AnalysisError
  | providerError : AnalysisError
  | parseError : AnalysisError
deriving DecidableEq, Repr

/-- Modelled from the spec: the sole failure mode of the aggregate topic
operation (§7). -/
inductive TopicError where
  | noAnalyzableContent : TopicError
deriving DecidableEq, Repr

/-- Modelled from the spec: SchemaValidator's score clamping (§4.3, §7) —
values outside [0,1] go to the nearest bound, in-range values pass
through. -/
def SchemaValidator.clampScore (x : ℚ) : ℚ :=
  if x < 0 then 0 else if 1 < x then 1 else x

/-- Modelled from the spec: score validation is a local recovery (§7):
out-of-range scores are clamped silently, never a fatal error. -/
def SchemaValidator.validateScore (x : ℚ) : Except AnalysisError ℚ :=
  .ok (SchemaValidator.clampScore x)

/-- Modelled from the spec: one gap entry of the structured model payload
before validation (§4.3); the required sub-fields may be missing. -/
structure RawGap where
  gapDescription : Option String
  gapType : Option String
  confidenceScore : ℚ
  potentialImpact : String
deriving DecidableEq, Repr

/-- Modelled from the spec: the structured payload extracted from raw
model output (§4.3); scores may be out of range. -/
structure RawOutput where
  keyFindings : List String
  gaps : List RawGap
  suggestedHypotheses : List Hypothesis
  limitations : List String
  methodologyGaps : List String
  futureDirections : List String
deriving DecidableEq, Repr

/-- Modelled from the spec: gap-entry validation (§4.3) — entries missing
description or gap type are dropped, confidence scores are clamped. -/
def SchemaValidator.validateGap (g : RawGap) : Option ResearchGap :=
  match g.gapDescription, g.gapType with
  | some d, some t =>
      some ⟨d, SchemaValidator.clampScore g.confidenceScore, t, g.potentialImpact⟩
  | _, _ => none

/-- Modelled from the spec: hypothesis validation clamps the feasibility
score (§3, §4.3). -/
def SchemaValidator.validateHypothesis (h : Hypothesis) : Hypothesis :=
  ⟨h.Hypothesis, h.Rationale, SchemaValidator.clampScore h.FeasibilityScore,
   h.RequiredMethods⟩

/-- Modelled from the spec: SchemaValidator.parse (§4.3).  Output with no
extractable structured payload (none) fails with ParseError; otherwise
invalid gap entries are dropped, scores are clamped and the result is
returned, an empty gap list being valid.  Processing time is stamped by
the analyzer and not modelled (0). -/
def SchemaValidator.parse (raw : Option RawOutput) :
    Except AnalysisError AnalyzeResponse :=
  match raw with
  | none => .error .parseError
  | some r => .ok ⟨r.keyFindings, r.gaps.filterMap SchemaValidator.validateGap,
      r.suggestedHypotheses.map SchemaValidator.validateHypothesis,
      r.limitations, r.methodologyGaps, r.futureDirections, 0⟩

/-- Modelled from the spec: AbstractAnalyzer.analyze (§4.1, §4.4) — an
empty abstract or field is an InvalidRequest; otherwise PromptBuilder,
LLMInvoker and SchemaValidator run in sequence, the provider being
abstracted as a function from request to extracted structured payload. -/
def AbstractAnalyzer.analyze (model : AnalyzeRequest → Option RawOutput)
    (req : AnalyzeRequest) : Except AnalysisError AnalyzeResponse :=
  if req.Abstract = "" ∨ req.Field = "" then .error .invalidRequest
  else SchemaValidator.parse (model req)

/-- First-seen-order deduplication (§4.6: grouping and future-direction
synthesis preserve first-seen order). -/
def dedupFirst [DecidableEq α] : List α → List α
  | [] => []
  | x :: xs => x :: (dedupFirst xs).filter (fun y => decide (y ≠ x))

/-- Modelled from the spec: CommonGap (§3) — a ResearchGap-shaped record
whose confidence is aggregated across contributing units, plus a support
count.  The potential-impact text has no specified aggregate and is
omitted. -/
structure CommonGap where
  gapDescription : String
  gapType : String
  confidenceScore : ℚ
  support : Nat
deriving DecidableEq, Repr

/-- Ranking order on CommonGaps (§4.6): support count descending, then
aggregated confidence descending. -/
def CommonGap.rankRel (a b : CommonGap) : Prop :=
  b.support < a.support ∨
    (a.support = b.support ∧ b.confidenceScore ≤ a.confidenceScore)

instance : DecidableRel CommonGap.rankRel := fun a b =>
  inferInstanceAs (Decidable (b.support < a.support ∨
    (a.support = b.support ∧ b.confidenceScore ≤ a.confidenceScore)))

instance : IsTotal CommonGap CommonGap.rankRel := ⟨by
  intro a b
  simp only [CommonGap.rankRel]
  rcases lt_trichotomy a.support b.support with h | h | h
  · exact Or.inr (Or.inl h)
  · rcases le_total b.confidenceScore a.confidenceScore with hc | hc
    · exact Or.inl (Or.inr ⟨h, hc⟩)
    · exact Or.inr (Or.inr ⟨h.symm, hc⟩)
  · exact Or.inl (Or.inl h)⟩

instance : IsTrans CommonGap CommonGap.rankRel := ⟨by
  intro a b c hab hbc
  simp only [CommonGap.rankRel] at hab hbc ⊢
  rcases hab with h1 | ⟨h1, hc1⟩ <;> rcases hbc with h2 | ⟨h2, hc2⟩
  · exact Or.inl (by omega)
  · exact Or.inl (by omega)
  · exact Or.inl (by omega)
  · exact Or.inr ⟨by omega, hc2.trans hc1⟩⟩

/-- Grouping key of a gap (§4.6): exact description and gap type, the
minimum acceptable deterministic similarity criterion. -/
def GapAggregator.gapKey (g : ResearchGap) : String × String :=
  (g.GapDescription, g.GapType)

/-- Whether a unit contributes a gap with the given key. -/
def GapAggregator.unitHasKey (u : TopicAnalysisResult) (k : String × String) : Bool :=
  u.Gaps.any (fun g => decide (GapAggregator.gapKey g = k))

/-- Modelled from the spec: support count of a group (§4.6) — the number
of distinct contributing units. -/
def GapAggregator.supportOf (us : List TopicAnalysisResult)
    (k : String × String) : Nat :=
  (us.filter (fun u => GapAggregator.unitHasKey u k)).length

/-- Member confidences of a group, in original contribution order. -/
def GapAggregator.confidencesOf (us : List TopicAnalysisResult)
    (k : String × String) : List ℚ :=
  (us.flatMap (fun u => u.Gaps)).filterMap
    (fun g => if GapAggregator.gapKey g = k then some g.ConfidenceScore else none)

/-- Arithmetic mean of a list of rationals. -/
def meanOf (l : List ℚ) : ℚ := l.sum / l.length

/-- Group keys across units, in first-seen order. -/
def GapAggregator.groupKeys (us : List TopicAnalysisResult) :
    List (String × String) :=
  dedupFirst (us.flatMap (fun u => u.Gaps.map GapAggregator.gapKey))

/-- The CommonGap built for one group key. -/
def GapAggregator.mkCommonGap (us : List TopicAnalysisResult)
    (k : String × String) : CommonGap :=
  ⟨k.1, k.2, meanOf (GapAggregator.confidencesOf us k),
   GapAggregator.supportOf us k⟩

/-- Modelled from the spec: GapAggregator's common-gap computation (§4.6)
— groups in first-seen order, support = distinct contributing units,
confidence = arithmetic mean of member confidences, output ordered by
support descending then confidence descending with a stable sort. -/
def GapAggregator.aggregateCommonGaps (us : List TopicAnalysisResult) :
    List CommonGap :=
  List.insertionSort CommonGap.rankRel
    ((GapAggregator.groupKeys us).map (GapAggregator.mkCommonGap us))

/-- Modelled from the spec: future-direction synthesis (§4.6) —
concatenate and deduplicate preserving first-seen order. -/
def GapAggregator.futureDirectionsOf (results : List AnalyzeResponse) :
    List String :=
  dedupFirst (results.flatMap (fun r => r.FutureDirections))

/-- Modelled from the spec: a candidate paper returned by the external
source-fetch collaborator (§6). -/
structure Paper where
  title : String
  authors : List String
  abstract : String
  url : String
deriving DecidableEq, Repr

/-- The fetched papers that analyzed successfully, paired with their
results, in fetch order (§4.5 step 3). -/
def TopicAnalyzer.successfulPairs (fetched : List Paper)
    (analyzeOne : Paper → Except AnalysisError AnalyzeResponse) :
    List (Paper × AnalyzeResponse) :=
  fetched.filterMap (fun p =>
    match analyzeOne p with
    | .ok r => some (p, r)
    | .error _ => none)

/-- The surviving TopicAnalysisUnits (§4.5 steps 3-4). -/
def TopicAnalyzer.successfulUnits (fetched : List Paper)
    (analyzeOne : Paper → Except AnalysisError AnalyzeResponse) :
    List TopicAnalysisResult :=
  (TopicAnalyzer.successfulPairs fetched analyzeOne).map
    (fun pr => ⟨pr.1.title, pr.1.authors, pr.1.abstract, pr.2.Gaps, pr.1.url⟩)

/-- Modelled from the spec: the server-side topic-analysis result record
(§3); the processing duration is wall-clock time and not modelled. -/
structure TopicResult where
  topic : String
  papersAnalyzed : Nat
  commonGaps : List CommonGap
  individualResults : List TopicAnalysisResult
  suggestedResearchDirections : List String
deriving DecidableEq, Repr

/-- Modelled from the spec: TopicAnalyzer.analyzeTopic (§4.5) — the fetch
collaborator's output is a parameter, per-paper results are kept in fetch
order, failed papers are excluded, and zero surviving papers (zero fetched
or all failing) fail with NoAnalyzableContent. -/
def TopicAnalyzer.analyzeTopic (topic : String) (fetched : List Paper)
    (analyzeOne : Paper → Except AnalysisError AnalyzeResponse) :
    Except TopicError TopicResult :=
  if TopicAnalyzer.successfulUnits fetched analyzeOne = [] then
    .error .noAnalyzableContent
  else
    .ok ⟨topic, (TopicAnalyzer.successfulUnits fetched analyzeOne).length,
      GapAggregator.aggregateCommonGaps (TopicAnalyzer.successfulUnits fetched analyzeOne),
      TopicAnalyzer.successfulUnits fetched analyzeOne,
      GapAggregator.futureDirectionsOf
        ((TopicAnalyzer.successfulPairs fetched analyzeOne).map Prod.snd)⟩

/-- Completion-order restoration key (§5): unit index ascending. -/
def indexLe (a b : Nat × TopicAnalysisResult) : Prop := a.1 ≤ b.1

instance : DecidableRel indexLe := fun a b =>
  inferInstanceAs (Decidable (a.1 ≤ b.1))

instance : IsTotal (Nat × TopicAnalysisResult) indexLe :=
  ⟨fun a b => Nat.le_total a.1 b.1⟩

instance : IsTrans (Nat × TopicAnalysisResult) indexLe :=
  ⟨fun _ _ _ hab hbc => Nat.le_trans hab hbc⟩

/-- Modelled from the spec: the collection step of §5 — concurrently
completed per-paper results, tagged with their unit index, are restored to
the stable fetch order by sorting on unit index, never by completion
order. -/
def TopicAnalyzer.collectByIndex
    (completed : List (Nat × TopicAnalysisResult)) : List TopicAnalysisResult :=
  (List.insertionSort indexLe completed).map Prod.snd

deriving instance DecidableEq for Except

/-! ### Claims about the orchestration core -/

/-- The aggregation scenario of §8: three units reporting the same gap
with confidences 0.6, 0.8, 0.7 and one unit with an unrelated gap. -/
def scenarioUnits : List TopicAnalysisResult :=
  [⟨"P1", [], "a", [⟨"lack of longitudinal data", 6/10, "empirical", ""⟩], ""⟩,
   ⟨"P2", [], "a", [⟨"lack of longitudinal data", 8/10, "empirical", ""⟩], ""⟩,
   ⟨"P3", [], "a", [⟨"lack of longitudinal data", 7/10, "empirical", ""⟩], ""⟩,
   ⟨"P4", [], "a", [⟨"no shared baseline", 9/10, "methodological", ""⟩], ""⟩]

/-- C1: GapAggregator gives every group a support count equal to its
number of distinct contributing units and an aggregated confidence equal
to the arithmetic mean of the member confidences, orders the output by
support count descending then aggregated confidence descending, and on
three units reporting the same gap with confidences 0.6, 0.8, 0.7 plus
one unrelated gap produces a support-3 entry with confidence 0.7 ranked
above the support-1 entry. -/
theorem aggregateCommonGaps_spec :
    (∀ (us : List TopicAnalysisResult) (c : CommonGap),
      c ∈ GapAggregator.aggregateCommonGaps us →
        c.support = GapAggregator.supportOf us (c.gapDescription, c.gapType) ∧
        c.confidenceScore =
          meanOf (GapAggregator.confidencesOf us (c.gapDescription, c.gapType))) ∧
    (∀ us : List TopicAnalysisResult,
      List.Sorted CommonGap.rankRel (GapAggregator.aggregateCommonGaps us)) ∧
    GapAggregator.aggregateCommonGaps scenarioUnits =
      [⟨"lack of longitudinal data", "empirical", 7/10, 3⟩,
       ⟨"no shared baseline", "methodological", 9/10, 1⟩] := by
  refine ⟨?_, ?_, ?_⟩
  · intro us c hc
    simp only [GapAggregator.aggregateCommonGaps, List.mem_insertionSort] at hc
    obtain ⟨k, hk, rfl⟩ := List.mem_map.mp hc
    exact ⟨by simp [GapAggregator.mkCommonGap], by simp [GapAggregator.mkCommonGap]⟩
  · intro us
    exact List.sorted_insertionSort CommonGap.rankRel _
  · simp +decide [GapAggregator.aggregateCommonGaps, GapAggregator.groupKeys,
      GapAggregator.mkCommonGap, GapAggregator.confidencesOf, GapAggregator.supportOf,
      GapAggregator.unitHasKey, GapAggregator.gapKey, dedupFirst, meanOf, scenarioUnits,
      CommonGap.rankRel, List.filter_cons, List.filterMap_cons, List.any_cons,
      List.any_nil, List.sum_cons, Prod.mk.injEq, CommonGap.mk.injEq]
    norm_num

/-- C1 witness: the aggregator's support-3 scenario entry carries exactly
the distinct-contributing-unit count and the mean member confidence. -/
theorem aggregateCommonGaps_spec_witness :
    (⟨"lack of longitudinal data", "empirical", 7/10, 3⟩ : CommonGap).support =
      GapAggregator.supportOf scenarioUnits
        ("lack of longitudinal data", "empirical") ∧
    (⟨"lack of longitudinal data", "empirical", 7/10, 3⟩ : CommonGap).confidenceScore =
      meanOf (GapAggregator.confidencesOf scenarioUnits
        ("lack of longitudinal data", "empirical")) := by
  have h := aggregateCommonGaps_spec
  have hm : (⟨"lack of longitudinal data", "empirical", 7/10, 3⟩ : CommonGap) ∈
      GapAggregator.aggregateCommonGaps scenarioUnits := by
    rw [h.2.2]
    exact List.mem_cons_self _ _
  exact h.1 scenarioUnits _ hm

/-- C2: for a fixed set of successfully-analyzed units, the collected
unit list and the GapAggregator output are identical regardless of the
order in which the concurrent per-paper analyses completed: any two
completion orders that are permutations of each other (with distinct unit
indices) collect to the same list and aggregate to the same CommonGaps. -/
theorem aggregate_completion_order_independent :
    ∀ l1 l2 : List (Nat × TopicAnalysisResult),
      l1.Perm l2 → (l1.map Prod.fst).Nodup →
      TopicAnalyzer.collectByIndex l1 = TopicAnalyzer.collectByIndex l2 ∧
      GapAggregator.aggregateCommonGaps (TopicAnalyzer.collectByIndex l1) =
        GapAggregator.aggregateCommonGaps (TopicAnalyzer.collectByIndex l2) := by
  intro l1 l2 hperm hnodup
  have key : List.insertionSort indexLe l1 = List.insertionSort indexLe l2 := by
    have p1 := List.perm_insertionSort indexLe l1
    have p2 := List.perm_insertionSort indexLe l2
    have hp : (List.insertionSort indexLe l1).Perm (List.insertionSort indexLe l2) :=
      (p1.trans hperm).trans p2.symm
    have s1 := List.sorted_insertionSort indexLe l1
    have s2 := List.sorted_insertionSort indexLe l2
    have hn1 : (List.insertionSort indexLe l1).Pairwise (fun a b => a.1 ≠ b.1) := by
      have hmap : ((List.insertionSort indexLe l1).map Prod.fst).Nodup :=
        ((p1.map Prod.fst).nodup_iff).mpr hnodup
      exact List.pairwise_map.mp hmap
    have hn2 : (List.insertionSort indexLe l2).Pairwise (fun a b => a.1 ≠ b.1) := by
      have hmap : ((List.insertionSort indexLe l2).map Prod.fst).Nodup :=
        (((p2.trans hperm.symm).map Prod.fst).nodup_iff).mpr hnodup
      exact List.pairwise_map.mp hmap
    have strict1 : (List.insertionSort indexLe l1).Pairwise
        (fun a b : Nat × TopicAnalysisResult => a.1 < b.1) :=
      (List.Pairwise.and s1 hn1).imp (fun h => lt_of_le_of_ne h.1 h.2)
    have strict2 : (List.insertionSort indexLe l2).Pairwise
        (fun a b : Nat × TopicAnalysisResult => a.1 < b.1) :=
      (List.Pairwise.and s2 hn2).imp (fun h => lt_of_le_of_ne h.1 h.2)
    haveI : IsAntisymm (Nat × TopicAnalysisResult) (fun a b => a.1 < b.1) :=
      ⟨fun a b h1 h2 => absurd (h1.trans h2) (lt_irrefl _)⟩
    exact List.eq_of_perm_of_sorted hp strict1 strict2
  refine ⟨?_, ?_⟩
  · unfold TopicAnalyzer.collectByIndex
    rw [key]
  · unfold TopicAnalyzer.collectByIndex
    rw [key]

/-- C2 witness: two concrete completion orders that are permutations of
each other collect to the same unit list. -/
theorem aggregate_completion_order_independent_witness :
    TopicAnalyzer.collectByIndex
        [(0, ⟨"A", [], "a", [], ""⟩), (1, ⟨"B", [], "b", [], ""⟩)] =
      TopicAnalyzer.collectByIndex
        [(1, ⟨"B", [], "b", [], ""⟩), (0, ⟨"A", [], "a", [], ""⟩)] :=
  (aggregate_completion_order_independent _ _ (List.Perm.swap _ _ _) (by decide)).1

/-- C3: the score clamping used by SchemaValidator sends every value
above 1.0 to 1.0 and every value below 0.0 to 0.0, leaves in-range values
unchanged, is idempotent, is never a fatal error, and clamps 1.7 to 1.0
and -0.3 to 0.0. -/
theorem clampScore_spec :
    (∀ x : ℚ,
      (1 < x → SchemaValidator.clampScore x = 1) ∧
      (x < 0 → SchemaValidator.clampScore x = 0) ∧
      (0 ≤ x → x ≤ 1 → SchemaValidator.clampScore x = x) ∧
      SchemaValidator.clampScore (SchemaValidator.clampScore x) =
        SchemaValidator.clampScore x ∧
      SchemaValidator.validateScore x = .ok (SchemaValidator.clampScore x)) ∧
    SchemaValidator.clampScore (17/10) = 1 ∧
    SchemaValidator.clampScore (-(3/10)) = 0 := by
  refine ⟨fun x => ⟨?_, ?_, ?_, ?_, rfl⟩, ?_, ?_⟩
  · intro h
    have h0 : ¬ x < 0 := not_lt.mpr (le_of_lt (lt_trans zero_lt_one h))
    simp [SchemaValidator.clampScore, h, h0]
  · intro h
    simp [SchemaValidator.clampScore, h]
  · intro h0 h1
    simp [SchemaValidator.clampScore, not_lt.mpr h0, not_lt.mpr h1]
  · by_cases h0 : x < 0
    · norm_num [SchemaValidator.clampScore, h0]
    · by_cases h1 : 1 < x
      · norm_num [SchemaValidator.clampScore, h0, h1]
      · simp [SchemaValidator.clampScore, h0, h1]
  · norm_num [SchemaValidator.clampScore]
  · norm_num [SchemaValidator.clampScore]

/-- C3 witness: clamping at the concrete inputs 2, -1 and 1/2. -/
theorem clampScore_spec_witness :
    SchemaValidator.clampScore 2 = 1 ∧ SchemaValidator.clampScore (-1) = 0 ∧
    SchemaValidator.clampScore (1/2) = 1/2 := by
  have h := clampScore_spec.1
  exact ⟨(h 2).1 (by norm_num), (h (-1)).2.1 (by norm_num),
    (h (1/2)).2.2.1 (by norm_num) (by norm_num)⟩

/-- No pair survives the per-paper analysis exactly when every fetched
paper's analysis fails. -/
theorem successfulPairs_eq_nil_iff (fetched : List Paper)
    (analyzeOne : Paper → Except AnalysisError AnalyzeResponse) :
    TopicAnalyzer.successfulPairs fetched analyzeOne = [] ↔
      ∀ p ∈ fetched, ∀ res, analyzeOne p ≠ .ok res := by
  induction fetched with
  | nil => simp [TopicAnalyzer.successfulPairs]
  | cons p ps ih =>
    cases hp : analyzeOne p with
    | ok r =>
      refine iff_of_false ?_ (fun h => h p (List.mem_cons_self p ps) r hp)
      simp [TopicAnalyzer.successfulPairs, List.filterMap_cons, hp]
    | error e =>
      constructor
      · intro h q hq res
        rcases List.mem_cons.mp hq with rfl | hq'
        · simp [hp]
        · have h' : TopicAnalyzer.successfulPairs ps analyzeOne = [] := by
            simpa [TopicAnalyzer.successfulPairs, List.filterMap_cons, hp] using h
          exact (ih.mp h') q hq' res
      · intro h
        have h' : TopicAnalyzer.successfulPairs ps analyzeOne = [] :=
          ih.mpr (fun q hq res => h q (List.mem_cons_of_mem p hq) res)
        simpa [TopicAnalyzer.successfulPairs, List.filterMap_cons, hp] using h'

/-- The surviving unit list is empty exactly when no pair survived. -/
theorem successfulUnits_eq_nil_iff (fetched : List Paper)
    (analyzeOne : Paper → Except AnalysisError AnalyzeResponse) :
    TopicAnalyzer.successfulUnits fetched analyzeOne = [] ↔
      TopicAnalyzer.successfulPairs fetched analyzeOne = [] := by
  cases h : TopicAnalyzer.successfulPairs fetched analyzeOne <;>
    simp [TopicAnalyzer.successfulUnits, h]

/-- The partial-failure scenario of §8: five fetched papers, two of which
fail analysis. -/
def scenarioPapers : List Paper :=
  [⟨"P0", [], "a", "u"⟩, ⟨"P1", [], "a", "u"⟩, ⟨"P2", [], "a", "u"⟩,
   ⟨"P3", [], "a", "u"⟩, ⟨"P4", [], "a", "u"⟩]

/-- Per-paper analysis for the scenario: the first two papers fail with a
ParseError, the rest succeed. -/
def scenarioAnalyze (p : Paper) : Except AnalysisError AnalyzeResponse :=
  if p.title = "P0" ∨ p.title = "P1" then .error .parseError
  else .ok ⟨[], [], [], [], [], [], 0⟩

/-- C4: analyzeTopic succeeds exactly when at least one fetched paper is
analyzed successfully, papers_analyzed counts only the successes, zero
fetched papers or all papers failing give NoAnalyzableContent, and the
5-fetched/2-failing scenario yields papers_analyzed = 3 with overall
success. -/
theorem analyzeTopic_partial_failure :
    (∀ (topic : String) (fetched : List Paper)
        (analyzeOne : Paper → Except AnalysisError AnalyzeResponse),
      ((∃ r, TopicAnalyzer.analyzeTopic topic fetched analyzeOne = .ok r) ↔
        ∃ p ∈ fetched, ∃ res, analyzeOne p = .ok res) ∧
      (∀ r, TopicAnalyzer.analyzeTopic topic fetched analyzeOne = .ok r →
        r.papersAnalyzed =
          (TopicAnalyzer.successfulUnits fetched analyzeOne).length) ∧
      (fetched = [] →
        TopicAnalyzer.analyzeTopic topic fetched analyzeOne =
          .error .noAnalyzableContent) ∧
      ((∀ p ∈ fetched, ∀ res, analyzeOne p ≠ .ok res) →
        TopicAnalyzer.analyzeTopic topic fetched analyzeOne =
          .error .noAnalyzableContent)) ∧
    (∃ r, TopicAnalyzer.analyzeTopic "t" scenarioPapers scenarioAnalyze = .ok r ∧
      r.papersAnalyzed = 3) := by
  refine ⟨?_, ⟨_, rfl, rfl⟩⟩
  intro topic fetched analyzeOne
  by_cases hu : TopicAnalyzer.successfulUnits fetched analyzeOne = []
  · have hall : ∀ p ∈ fetched, ∀ res, analyzeOne p ≠ .ok res :=
      (successfulPairs_eq_nil_iff fetched analyzeOne).mp
        ((successfulUnits_eq_nil_iff fetched analyzeOne).mp hu)
    refine ⟨?_, ?_, ?_, ?_⟩
    · refine iff_of_false ?_ ?_
      · rintro ⟨r, hr⟩
        rw [TopicAnalyzer.analyzeTopic, if_pos hu] at hr
        simp at hr
      · rintro ⟨p, hp, res, hres⟩
        exact hall p hp res hres
    · intro r hr
      rw [TopicAnalyzer.analyzeTopic, if_pos hu] at hr
      simp at hr
    · intro _
      rw [TopicAnalyzer.analyzeTopic, if_pos hu]
    · intro _
      rw [TopicAnalyzer.analyzeTopic, if_pos hu]
  · refine ⟨?_, ?_, ?_, ?_⟩
    · refine iff_of_true ⟨⟨topic,
        (TopicAnalyzer.successfulUnits fetched analyzeOne).length,
        GapAggregator.aggregateCommonGaps (TopicAnalyzer.successfulUnits fetched analyzeOne),
        TopicAnalyzer.successfulUnits fetched analyzeOne,
        GapAggregator.futureDirectionsOf
          ((TopicAnalyzer.successfulPairs fetched analyzeOne).map Prod.snd)⟩, ?_⟩ ?_
      · rw [TopicAnalyzer.analyzeTopic, if_neg hu]
      · by_contra hno
        push_neg at hno
        exact hu ((successfulUnits_eq_nil_iff fetched analyzeOne).mpr
          ((successfulPairs_eq_nil_iff fetched analyzeOne).mpr hno))
    · intro r hr
      rw [TopicAnalyzer.analyzeTopic, if_neg hu] at hr
      cases hr
      rfl
    · intro hf
      subst hf
      exact absurd rfl hu
    · intro hall
      exact absurd ((successfulUnits_eq_nil_iff fetched analyzeOne).mpr
        ((successfulPairs_eq_nil_iff fetched analyzeOne).mpr hall)) hu

/-- C4 witness: zero fetched papers and a single all-failing paper both
yield NoAnalyzableContent. -/
theorem analyzeTopic_partial_failure_witness :
    TopicAnalyzer.analyzeTopic "t" [] scenarioAnalyze =
      .error .noAnalyzableContent ∧
    TopicAnalyzer.analyzeTopic "t" [⟨"P0", [], "a", "u"⟩] scenarioAnalyze =
      .error .noAnalyzableContent := by
  refine ⟨(analyzeTopic_partial_failure.1 "t" [] scenarioAnalyze).2.2.1 rfl, ?_⟩
  refine (analyzeTopic_partial_failure.1 "t" [⟨"P0", [], "a", "u"⟩]
    scenarioAnalyze).2.2.2 ?_
  intro p hp res hres
  rw [List.mem_singleton] at hp
  subst hp
  simp [scenarioAnalyze] at hres

/-- C5: every AnalysisResult returned by AbstractAnalyzer has each gap
confidence score and each hypothesis feasibility score within [0,1]. -/
theorem analyze_scores_in_range :
    ∀ (model : AnalyzeRequest → Option RawOutput) (req : AnalyzeRequest)
      (res : AnalyzeResponse),
      AbstractAnalyzer.analyze model req = .ok res →
      (∀ g ∈ res.Gaps, 0 ≤ g.ConfidenceScore ∧ g.ConfidenceScore ≤ 1) ∧
      (∀ h ∈ res.SuggestedHypotheses,
        0 ≤ h.FeasibilityScore ∧ h.FeasibilityScore ≤ 1) := by
  intro model req res hres
  have hb : ∀ x : ℚ, 0 ≤ SchemaValidator.clampScore x ∧
      SchemaValidator.clampScore x ≤ 1 := by
    intro x
    unfold SchemaValidator.clampScore
    split_ifs with h0 h1
    · norm_num
    · norm_num
    · exact ⟨not_lt.mp h0, not_lt.mp h1⟩
  unfold AbstractAnalyzer.analyze at hres
  split_ifs at hres
  · cases hm : model req with
    | none => rw [hm] at hres; simp [SchemaValidator.parse] at hres
    | some raw =>
      rw [hm] at hres
      simp only [SchemaValidator.parse] at hres
      cases hres
      constructor
      · intro g hg
        obtain ⟨rg, hrg, hv⟩ := List.mem_filterMap.mp hg
        unfold SchemaValidator.validateGap at hv
        cases hd : rg.gapDescription <;> cases ht : rg.gapType <;>
          rw [hd, ht] at hv <;> cases hv
        exact hb _
      · intro h hh
        obtain ⟨h0, hh0, rfl⟩ := List.mem_map.mp hh
        exact hb _

/-- C5 witness: a model emitting an out-of-range confidence 2 and an
out-of-range feasibility -1 still yields a result with all scores in
[0,1]. -/
theorem analyze_scores_in_range_witness :
    (∀ g ∈ (⟨[], [⟨"g", 1, "empirical", ""⟩], [⟨"h", "r", 0, []⟩],
        [], [], [], 0⟩ : AnalyzeResponse).Gaps,
      0 ≤ g.ConfidenceScore ∧ g.ConfidenceScore ≤ 1) ∧
    (∀ h ∈ (⟨[], [⟨"g", 1, "empirical", ""⟩], [⟨"h", "r", 0, []⟩],
        [], [], [], 0⟩ : AnalyzeResponse).SuggestedHypotheses,
      0 ≤ h.FeasibilityScore ∧ h.FeasibilityScore ≤ 1) :=
  analyze_scores_in_range
    (fun _ => some ⟨[], [⟨some "g", some "empirical", 2, ""⟩],
      [⟨"h", "r", -1, []⟩], [], [], []⟩)
    ⟨"T", "A", "medicine", [], []⟩
    ⟨[], [⟨"g", 1, "empirical", ""⟩], [⟨"h", "r", 0, []⟩], [], [], [], 0⟩
    (by decide)
